import Mathlib

/-!
Verification of the recharted chart-data pipeline.

This file gives a shallow embedding, in Lean, of the chart-data resolution
pipeline of the repository: the interval-policy lookup functions, the
synthetic history generator, the market-data resolver with its provider
fallback chain, the tweet resolver, the codex API route handler, and the
chart anchor locator.  JavaScript numbers are modelled as rationals,
timestamps as integer milliseconds, and every external effect (HTTP fetch,
Math.random, Math.sin and Math.cos on transcendental arguments, the wall
clock) is threaded through explicit environment parameters so that every
definition is a total, executable Lean function translated from the source.
-/

namespace Recharted

/-! ## JavaScript string and number helpers

The source relies on JavaScript string splitting, substring search and
truthiness.  All helpers are structural recursions over character lists so
that concrete instances evaluate inside the kernel. -/

/-- Splits a character list at every occurrence of the separator, modelling
the behaviour of the JavaScript String.split method with a one-character
separator. -/
def charSplit (sep : Char) : List Char → List (List Char)
  | [] => [[]]
  | c :: rest =>
    let r := charSplit sep rest
    if c = sep then [] :: r
    else
      match r with
      | [] => [[c]]
      | h :: t => (c :: h) :: t

/-- String.split with a one-character separator. -/
def strSplit (s : String) (sep : Char) : List String :=
  (charSplit sep s.toList).map (fun l => String.mk l)

/-- Boolean test that the first list is an initial segment of the second. -/
def charStarts : List Char → List Char → Bool
  | [], _ => true
  | _ :: _, [] => false
  | a :: as, b :: bs => a = b && charStarts as bs

/-- Boolean test that the first list occurs inside the second. -/
def charIncl (sub : List Char) : List Char → Bool
  | [] => charStarts sub []
  | c :: rest => charStarts sub (c :: rest) || charIncl sub rest

/-- JavaScript String.includes. -/
def jsIncludes (s sub : String) : Bool := charIncl sub.toList s.toList

/-- JavaScript String.startsWith. -/
def jsStarts (s pre : String) : Bool := charStarts pre.toList s.toList

/-- JavaScript String.toLowerCase restricted to ASCII, which is all the
source applies it to. -/
def jsToLower (s : String) : String := String.mk (s.toList.map Char.toLower)

/-- Truthiness of a possibly-undefined JavaScript string: undefined and the
empty string are falsy. -/
def jsTruthyS : Option String → Bool
  | none => false
  | some s => !(s = "")

/-- The JavaScript expression a OR b for a possibly-undefined string a with
a string default b. -/
def jsOrS (a : Option String) (b : String) : String :=
  match a with
  | some s => if s = "" then b else s
  | none => b

/-- The JavaScript expression a OR b for possibly-undefined numbers, where
undefined and zero are falsy. -/
def jsOrN (a b : Option ℚ) : Option ℚ :=
  match a with
  | some x => if x = 0 then b else some x
  | none => b

/-- Truthiness of a possibly-undefined JavaScript number. -/
def jsTruthyN : Option ℚ → Bool
  | none => false
  | some x => !(x = 0)

/-- Numeric fallback chain v1 OR v2 for array elements: an undefined or
zero element falls through to the next candidate. -/
def jsNumOr (a : Option ℚ) (b : ℚ) : ℚ :=
  match a with
  | some x => if x = 0 then b else x
  | none => b

/-- Comparison x is less than y where y may be undefined: every comparison
with undefined is false in JavaScript. -/
def jsLtOpt (x : ℤ) : Option ℤ → Bool
  | some y => decide (x < y)
  | none => false

/-- Comparison x is greater than y where y may be undefined. -/
def jsGtOpt (x : ℤ) : Option ℤ → Bool
  | some y => decide (y < x)
  | none => false

/-- Math.ceil of an integer quotient, for a positive divisor, as the source
computes it on floating-point division results that are exact here. -/
def jsCeilDiv (a b : ℤ) : ℤ := -((-a) / b)

/-! ## Interval Policy Table

Translation of the three lookup functions at the bottom of the api library
file: getIntervalMs, getOptimalDataPoints and getTimeframeInMs, each a
switch on the timeframe token with a default branch. -/

/-- Sample interval in milliseconds for a timeframe token. -/
def getIntervalMs (timeframe : String) : ℕ :=
  if timeframe = "5m" then 5 * 60 * 1000
  else if timeframe = "15m" then 15 * 60 * 1000
  else if timeframe = "1h" then 60 * 60 * 1000
  else if timeframe = "4h" then 4 * 60 * 60 * 1000
  else if timeframe = "6h" then 6 * 60 * 60 * 1000
  else if timeframe = "1d" then 24 * 60 * 60 * 1000
  else 60 * 60 * 1000

/-- Maximal number of data points kept for chart readability. -/
def getOptimalDataPoints (timeframe : String) : ℕ :=
  if timeframe = "5m" then 24
  else if timeframe = "15m" then 24
  else if timeframe = "1h" then 24
  else if timeframe = "4h" then 42
  else if timeframe = "6h" then 40
  else if timeframe = "1d" then 60
  else 24

/-- Total chart window duration in milliseconds for a timeframe token. -/
def getTimeframeInMs (timeframe : String) : ℕ :=
  if timeframe = "5m" then 2 * 60 * 60 * 1000
  else if timeframe = "15m" then 6 * 60 * 60 * 1000
  else if timeframe = "1h" then 24 * 60 * 60 * 1000
  else if timeframe = "4h" then 7 * 24 * 60 * 60 * 1000
  else if timeframe = "6h" then 10 * 24 * 60 * 60 * 1000
  else if timeframe = "1d" then 60 * 24 * 60 * 60 * 1000
  else 24 * 60 * 60 * 1000

/-- The known timeframe tokens handled by all three lookup tables. -/
def knownTimeframes : List String := ["5m", "15m", "1h", "4h", "6h", "1d"]

end Recharted

namespace Recharted

/-! ## Synthetic History Generator

Translation of generateHistoricalDataFromPair and generateMockChartData.
Ambient JavaScript randomness and trigonometry are modelled by an oracle:
the rand field returns the value of the n-th call to Math.random, and the
sinPi5 and cosPi7 fields return Math.sin of five pi times the argument and
Math.cos of seven pi times the argument. -/

/-- Oracle for the ambient Math functions used by the generators. -/
structure MathOracle where
  rand : ℕ → ℚ
  sinPi5 : ℚ → ℚ
  cosPi7 : ℚ → ℚ

/-- The fields of a DexScreener pair object that the pipeline reads.  The
priceUsd string is represented by its parsed numeric value. -/
structure DexScreenerToken where
  baseTokenSymbol : String
  quoteTokenSymbol : String
  priceUsd : ℚ
  volumeH24 : ℚ
  priceChangeH1 : ℚ
  priceChangeH6 : ℚ
  priceChangeH24 : ℚ
  fdv : ℚ
deriving DecidableEq

/-- The loop body of generateHistoricalDataFromPair, producing the price
and volume arrays.  Arguments after the per-call constants are the number
of remaining iterations, the loop index, the index of the next Math.random
call and the running currentPricePoint.  Decimal constants of the source
appear as exact rationals (0.5 is 1/2, 0.15 is 15/100, and so on). -/
def genPricesVolumes (o : MathOracle) (currentPrice currentVolume baseChangeRate : ℚ)
    (actualDataPoints : ℕ) : ℕ → ℕ → ℕ → ℚ → List ℚ × List ℚ
  | 0, _, _, _ => ([], [])
  | rem + 1, i, k, prevPoint =>
    let timeProgress : ℚ := (i : ℚ) / (actualDataPoints : ℚ)
    let distanceFromEnd := 1 - timeProgress
    let pm1 := 1 - baseChangeRate * distanceFromEnd
    let volatilityFactor : ℚ := if currentPrice < 1/100 then 4/5 else 3/5
    let randomWalk := (o.rand k - 1/2) * volatilityFactor
    let pm2 := pm1 * (1 + randomWalk)
    let extremeEventChance := o.rand (k + 1)
    let pm3k :=
      if extremeEventChance < 15/100 then
        (pm2 * (1 + o.rand (k + 2) * (6/5)), k + 3)
      else if extremeEventChance < 3/10 then
        (pm2 * (1 - o.rand (k + 2) * (7/10)), k + 3)
      else (pm2, k + 2)
    let chaosFactor := o.sinPi5 timeProgress * (2/5)
    let secondaryWave := o.cosPi7 timeProgress * (3/10)
    let priceMultiplier := pm3k.1 * (1 + chaosFactor + secondaryWave)
    let finalPrice := currentPrice * priceMultiplier
    let priceVolatility := |finalPrice - prevPoint| / prevPoint
    let volumeMultiplier := 1 + priceVolatility * 5
    let baseVolumeVariation := 3/10 + o.rand pm3k.2 * (14/10)
    let finalVolume := currentVolume * baseVolumeVariation * volumeMultiplier
    let rest := genPricesVolumes o currentPrice currentVolume baseChangeRate
      actualDataPoints rem (i + 1) (pm3k.2 + 1) finalPrice
    (max (1/1000000) finalPrice :: rest.1, max 0 finalVolume :: rest.2)

/-- Translation of generateHistoricalDataFromPair.  The optional tweet
timestamp and the current wall clock are integer milliseconds; the result
triple carries the prices, the volumes and the timestamps, the latter as
the millisecond values whose ISO rendering the source pushes. -/
def generateHistoricalDataFromPair (o : MathOracle) (pair : DexScreenerToken)
    (timeframe : String) (tweetTimestamp : Option ℤ) (nowMs : ℤ) :
    List ℚ × List ℚ × List ℤ :=
  let currentPrice := pair.priceUsd
  let currentVolume := pair.volumeH24 / 24
  let intervalMs := getIntervalMs timeframe
  let centerTime := tweetTimestamp.getD nowMs
  let timeframeMs := getTimeframeInMs timeframe
  let halfTimeframe : ℤ := (timeframeMs : ℤ) / 2
  let startTime := centerTime - halfTimeframe
  let endTime := centerTime + halfTimeframe
  let totalTimespan := endTime - startTime
  let totalDataPoints : ℕ := (jsCeilDiv totalTimespan (intervalMs : ℤ)).toNat
  let maxDataPoints := getOptimalDataPoints timeframe
  let actualDataPoints := min totalDataPoints maxDataPoints
  let priceChange24h := pair.priceChangeH24 / 100
  let priceChange1h := pair.priceChangeH1 / 100
  let priceChange6h := pair.priceChangeH6 / 100
  let baseChangeRate :=
    if timeframe = "1d" then priceChange24h
    else if timeframe = "4h" ∨ timeframe = "6h" then priceChange6h
    else priceChange1h
  let timestamps := (List.range totalDataPoints).map
    (fun i : ℕ => startTime + (i : ℤ) * (intervalMs : ℤ))
  let pv := genPricesVolumes o currentPrice currentVolume baseChangeRate
    actualDataPoints totalDataPoints 0 0 currentPrice
  (pv.1, pv.2, timestamps)

/-- The loop body of generateMockChartData.  State: remaining iterations,
next Math.random index, the trend accumulator and the running price. -/
def genMockLoop (o : MathOracle) : ℕ → ℕ → ℚ → ℚ → List ℚ × List ℚ
  | 0, _, _, _ => ([], [])
  | rem + 1, k, trend, price =>
    let tk := if o.rand k > 7/10 then ((o.rand (k + 1) - 1/2) * (1/10), k + 2)
      else (trend, k + 1)
    let randomChange := (o.rand tk.2 - 1/2) * (15/100)
    let trendChange := tk.1 * (1/10)
    let totalChange := randomChange + trendChange
    let price2 := max (1/1000000) (price * (1 + totalChange))
    let baseVolume := 500000 + o.rand (tk.2 + 1) * 2000000
    let volumeMultiplier := 1 + |totalChange| * 10
    let rest := genMockLoop o rem (tk.2 + 2) tk.1 price2
    (price2 :: rest.1, baseVolume * volumeMultiplier :: rest.2)

/-- Translation of generateMockChartData, the last-resort generator with a
hard-coded starting price of 0.00012345. -/
def generateMockChartData (o : MathOracle) (timeframe : String)
    (tweetTimestamp : Option ℤ) (nowMs : ℤ) : List ℚ × List ℚ × List ℤ :=
  let intervalMs := getIntervalMs timeframe
  let centerTime := tweetTimestamp.getD nowMs
  let timeframeMs := getTimeframeInMs timeframe
  let halfTimeframe : ℤ := (timeframeMs : ℤ) / 2
  let startTime := centerTime - halfTimeframe
  let endTime := centerTime + halfTimeframe
  let totalTimespan := endTime - startTime
  let totalDataPoints : ℕ := (jsCeilDiv totalTimespan (intervalMs : ℤ)).toNat
  let maxDataPoints := getOptimalDataPoints timeframe
  let actualDataPoints := min totalDataPoints maxDataPoints
  let timestamps := (List.range actualDataPoints).map
    (fun i : ℕ => startTime + (i : ℤ) * (intervalMs : ℤ))
  let pv := genMockLoop o actualDataPoints 0 0 (12345/100000000)
  (pv.1, pv.2, timestamps)

end Recharted

namespace Recharted

/-- The two price and volume lists of the generator loop both have exactly
as many entries as there are iterations. -/
theorem genPricesVolumes_length (o : MathOracle) (cp cv bcr : ℚ) (adp : ℕ) :
    ∀ rem i k pp,
      (genPricesVolumes o cp cv bcr adp rem i k pp).1.length = rem ∧
      (genPricesVolumes o cp cv bcr adp rem i k pp).2.length = rem := by
  intro rem
  induction rem with
  | zero => intro i k pp; simp [genPricesVolumes]
  | succ n ih =>
    intro i k pp
    simp only [genPricesVolumes, List.length_cons]
    constructor
    · rw [(ih (i + 1) _ _).1]
    · rw [(ih (i + 1) _ _).2]

/-- Every price pushed by the generator loop is at least the epsilon floor
of one millionth. -/
theorem genPricesVolumes_price_pos (o : MathOracle) (cp cv bcr : ℚ) (adp : ℕ) :
    ∀ rem i k pp, ∀ x ∈ (genPricesVolumes o cp cv bcr adp rem i k pp).1,
      1 / 1000000 ≤ x := by
  intro rem
  induction rem with
  | zero => intro i k pp x hx; simp [genPricesVolumes] at hx
  | succ n ih =>
    intro i k pp x hx
    simp only [genPricesVolumes, List.mem_cons] at hx
    rcases hx with h | h
    · exact h ▸ le_max_left _ _
    · exact ih (i + 1) _ _ x h

/-- Every volume pushed by the generator loop is nonnegative. -/
theorem genPricesVolumes_volume_nonneg (o : MathOracle) (cp cv bcr : ℚ) (adp : ℕ) :
    ∀ rem i k pp, ∀ x ∈ (genPricesVolumes o cp cv bcr adp rem i k pp).2,
      0 ≤ x := by
  intro rem
  induction rem with
  | zero => intro i k pp x hx; simp [genPricesVolumes] at hx
  | succ n ih =>
    intro i k pp x hx
    simp only [genPricesVolumes, List.mem_cons] at hx
    rcases hx with h | h
    · exact h ▸ le_max_left _ _
    · exact ih (i + 1) _ _ x h

/-- Each timeframe window is an even number of milliseconds, so the
floating-point halving in the source is exact. -/
theorem window_even (timeframe : String) :
    2 * ((getTimeframeInMs timeframe : ℤ) / 2) = (getTimeframeInMs timeframe : ℤ) := by
  unfold getTimeframeInMs
  split_ifs <;> decide

/-- For every timeframe, the ceiling of window over interval equals the
optimal data point count of the same timeframe. -/
theorem ceil_window_eq_optimal (timeframe : String) :
    (jsCeilDiv (getTimeframeInMs timeframe : ℤ) (getIntervalMs timeframe : ℤ)).toNat =
      getOptimalDataPoints timeframe := by
  unfold getTimeframeInMs getIntervalMs getOptimalDataPoints jsCeilDiv
  split_ifs <;> decide

/-- Every sample interval is positive. -/
theorem intervalMs_pos (timeframe : String) : 0 < getIntervalMs timeframe := by
  unfold getIntervalMs
  split_ifs <;> decide

/-- Every optimal data point count is positive. -/
theorem optimalDataPoints_pos (timeframe : String) :
    0 < getOptimalDataPoints timeframe := by
  unfold getOptimalDataPoints
  split_ifs <;> decide

/-- The generator timeline spans exactly the timeframe window. -/
theorem timespan_eq_window (timeframe : String) (center : ℤ) :
    center + (getTimeframeInMs timeframe : ℤ) / 2 -
      (center - (getTimeframeInMs timeframe : ℤ) / 2) =
      (getTimeframeInMs timeframe : ℤ) := by
  have h := window_even timeframe
  omega

/-- Closed form of the generator: since the window always spans exactly
the timeframe duration and its ceiling quotient by the interval equals the
optimal point count, the loop runs exactly getOptimalDataPoints
iterations. -/
theorem generateHistoricalDataFromPair_eq (o : MathOracle) (pair : DexScreenerToken)
    (timeframe : String) (tweetTimestamp : Option ℤ) (nowMs : ℤ) :
    generateHistoricalDataFromPair o pair timeframe tweetTimestamp nowMs =
      ((genPricesVolumes o pair.priceUsd (pair.volumeH24 / 24)
          (if timeframe = "1d" then pair.priceChangeH24 / 100
           else if timeframe = "4h" ∨ timeframe = "6h" then pair.priceChangeH6 / 100
           else pair.priceChangeH1 / 100)
          (getOptimalDataPoints timeframe) (getOptimalDataPoints timeframe) 0 0
          pair.priceUsd).1,
       (genPricesVolumes o pair.priceUsd (pair.volumeH24 / 24)
          (if timeframe = "1d" then pair.priceChangeH24 / 100
           else if timeframe = "4h" ∨ timeframe = "6h" then pair.priceChangeH6 / 100
           else pair.priceChangeH1 / 100)
          (getOptimalDataPoints timeframe) (getOptimalDataPoints timeframe) 0 0
          pair.priceUsd).2,
       (List.range (getOptimalDataPoints timeframe)).map
         (fun i : ℕ => tweetTimestamp.getD nowMs - (getTimeframeInMs timeframe : ℤ) / 2 +
           (i : ℤ) * (getIntervalMs timeframe : ℤ))) := by
  simp only [generateHistoricalDataFromPair]
  rw [timespan_eq_window, ceil_window_eq_optimal, Nat.min_self]

/-- C3: for every pair snapshot with positive price and volume, every
timeframe and every optional center timestamp, the synthetic history
generator returns three arrays of equal positive length, with every price
positive thanks to the one-millionth floor, every volume nonnegative, and
timestamps evenly spaced by the sample interval starting at the center
minus half the total window, hence strictly increasing. -/
theorem claim3_generator_invariants (o : MathOracle) (pair : DexScreenerToken)
    (timeframe : String) (tweetTimestamp : Option ℤ) (nowMs : ℤ)
    (hp : 0 < pair.priceUsd) (hv : 0 < pair.volumeH24) :
    (generateHistoricalDataFromPair o pair timeframe tweetTimestamp nowMs).1.length =
      (generateHistoricalDataFromPair o pair timeframe tweetTimestamp nowMs).2.1.length ∧
    (generateHistoricalDataFromPair o pair timeframe tweetTimestamp nowMs).2.1.length =
      (generateHistoricalDataFromPair o pair timeframe tweetTimestamp nowMs).2.2.length ∧
    0 < (generateHistoricalDataFromPair o pair timeframe tweetTimestamp nowMs).1.length ∧
    (∀ p ∈ (generateHistoricalDataFromPair o pair timeframe tweetTimestamp nowMs).1, 0 < p) ∧
    (∀ v ∈ (generateHistoricalDataFromPair o pair timeframe tweetTimestamp nowMs).2.1, 0 ≤ v) ∧
    (∀ i (h : i < (generateHistoricalDataFromPair o pair timeframe tweetTimestamp nowMs).2.2.length),
      (generateHistoricalDataFromPair o pair timeframe tweetTimestamp nowMs).2.2.get ⟨i, h⟩ =
        tweetTimestamp.getD nowMs - (getTimeframeInMs timeframe : ℤ) / 2 +
          (i : ℤ) * (getIntervalMs timeframe : ℤ)) ∧
    List.Chain' (· < ·) (generateHistoricalDataFromPair o pair timeframe tweetTimestamp nowMs).2.2 := by
  rw [generateHistoricalDataFromPair_eq]
  refine ⟨?_, ?_, ?_, ?_, ?_, ?_, ?_⟩
  · rw [(genPricesVolumes_length o _ _ _ _ _ 0 0 _).1,
      (genPricesVolumes_length o _ _ _ _ _ 0 0 _).2]
  · rw [(genPricesVolumes_length o _ _ _ _ _ 0 0 _).2,
      List.length_map, List.length_range]
  · rw [(genPricesVolumes_length o _ _ _ _ _ 0 0 _).1]
    exact optimalDataPoints_pos timeframe
  · intro p hmem
    have h := genPricesVolumes_price_pos o _ _ _ _ _ 0 0 _ p hmem
    have : (0 : ℚ) < 1 / 1000000 := by norm_num
    linarith
  · intro v hmem
    exact genPricesVolumes_volume_nonneg o _ _ _ _ _ 0 0 _ v hmem
  · intro i h
    simp only [List.get_eq_getElem, List.getElem_map, List.getElem_range]
  · rw [List.chain'_iff_get]
    intro i h
    simp only [List.get_eq_getElem, List.getElem_map, List.getElem_range]
    have hI : (0 : ℤ) < (getIntervalMs timeframe : ℤ) := by
      exact_mod_cast intervalMs_pos timeframe
    push_cast
    nlinarith [hI]

/-- Concrete pair snapshot used by the generator witnesses. -/
def witnessPair : DexScreenerToken :=
  { baseTokenSymbol := "PEPE", quoteTokenSymbol := "USDT", priceUsd := 1,
    volumeH24 := 24, priceChangeH1 := 5, priceChangeH6 := 10,
    priceChangeH24 := 20, fdv := 1000 }

/-- Concrete oracle used by the generator witnesses. -/
def witnessOracle : MathOracle :=
  { rand := fun _ => 1/2, sinPi5 := fun _ => 0, cosPi7 := fun _ => 0 }

/-- Witness for C3 at a concrete snapshot, timeframe and oracle. -/
theorem claim3_generator_invariants_witness :
    (generateHistoricalDataFromPair witnessOracle witnessPair "1h" none 0).1.length =
      (generateHistoricalDataFromPair witnessOracle witnessPair "1h" none 0).2.1.length ∧
    (generateHistoricalDataFromPair witnessOracle witnessPair "1h" none 0).2.1.length =
      (generateHistoricalDataFromPair witnessOracle witnessPair "1h" none 0).2.2.length ∧
    0 < (generateHistoricalDataFromPair witnessOracle witnessPair "1h" none 0).1.length ∧
    (∀ p ∈ (generateHistoricalDataFromPair witnessOracle witnessPair "1h" none 0).1, 0 < p) ∧
    (∀ v ∈ (generateHistoricalDataFromPair witnessOracle witnessPair "1h" none 0).2.1, 0 ≤ v) ∧
    (∀ i (h : i < (generateHistoricalDataFromPair witnessOracle witnessPair "1h" none 0).2.2.length),
      (generateHistoricalDataFromPair witnessOracle witnessPair "1h" none 0).2.2.get ⟨i, h⟩ =
        (none : Option ℤ).getD 0 - (getTimeframeInMs "1h" : ℤ) / 2 +
          (i : ℤ) * (getIntervalMs "1h" : ℤ)) ∧
    List.Chain' (· < ·) (generateHistoricalDataFromPair witnessOracle witnessPair "1h" none 0).2.2 :=
  claim3_generator_invariants witnessOracle witnessPair "1h" none 0
    (by decide) (by decide)

/-- C4: the number of samples produced by the synthetic history generator
always equals the minimum of the ceiling of total window over sample
interval and the maximal sample count of the interval policy, with the
window centered on the tweet timestamp or now.  The source loops over the
unclamped ceiling, which coincides with that minimum for every
timeframe. -/
theorem claim4_generator_sample_count (o : MathOracle) (pair : DexScreenerToken)
    (timeframe : String) (tweetTimestamp : Option ℤ) (nowMs : ℤ) :
    (generateHistoricalDataFromPair o pair timeframe tweetTimestamp nowMs).1.length =
      min ((jsCeilDiv (getTimeframeInMs timeframe : ℤ) (getIntervalMs timeframe : ℤ)).toNat)
        (getOptimalDataPoints timeframe) ∧
    (generateHistoricalDataFromPair o pair timeframe tweetTimestamp nowMs).2.1.length =
      min ((jsCeilDiv (getTimeframeInMs timeframe : ℤ) (getIntervalMs timeframe : ℤ)).toNat)
        (getOptimalDataPoints timeframe) ∧
    (generateHistoricalDataFromPair o pair timeframe tweetTimestamp nowMs).2.2.length =
      min ((jsCeilDiv (getTimeframeInMs timeframe : ℤ) (getIntervalMs timeframe : ℤ)).toNat)
        (getOptimalDataPoints timeframe) := by
  have hmin : min ((jsCeilDiv (getTimeframeInMs timeframe : ℤ) (getIntervalMs timeframe : ℤ)).toNat)
      (getOptimalDataPoints timeframe) = getOptimalDataPoints timeframe := by
    rw [ceil_window_eq_optimal, Nat.min_self]
  rw [generateHistoricalDataFromPair_eq, hmin]
  refine ⟨?_, ?_, ?_⟩
  · rw [(genPricesVolumes_length o _ _ _ _ _ 0 0 _).1]
  · rw [(genPricesVolumes_length o _ _ _ _ _ 0 0 _).2]
  · rw [List.length_map, List.length_range]

/-! ## Tweet Resolver

Translation of extractTweetId and fetchTweetData.  The regular expression
that extracts a tweet id matches, at some position of the input, the
literal twitter.com/ or x.com/, one nonempty segment free of slashes, the
literal /status/ and a nonempty maximal digit run; the scan below tries
every start position from the left exactly as the regex engine does. -/

/-- Matches the segment, the /status/ literal and the digit group of the
tweet-URL pattern, returning the captured username segment and digits. -/
def matchTweetSeg (cs : List Char) : Option (String × String) :=
  let seg := cs.takeWhile (fun c => !(c = '/'))
  if seg.isEmpty then none
  else
    let rest := cs.drop seg.length
    if charStarts "/status/".toList rest then
      let ds := (rest.drop 8).takeWhile Char.isDigit
      if ds.isEmpty then none else some (String.mk seg, String.mk ds)
    else none

/-- Tries the tweet-URL pattern anchored at the head of the list. -/
def matchTweetAt (cs : List Char) : Option (String × String) :=
  if charStarts "twitter.com/".toList cs then matchTweetSeg (cs.drop 12)
  else if charStarts "x.com/".toList cs then matchTweetSeg (cs.drop 6)
  else none

/-- Scans every start position from the left for the tweet-URL pattern. -/
def scanTweetUrl : List Char → Option (String × String)
  | [] => none
  | c :: rest =>
    match matchTweetAt (c :: rest) with
    | some r => some r
    | none => scanTweetUrl rest

/-- Translation of extractTweetId: the digit capture of the pattern, or
none when no position matches. -/
def extractTweetId (tweetUrl : String) : Option String :=
  (scanTweetUrl tweetUrl.toList).map (fun r => r.2)

/-- The normalized tweet record returned to the caller. -/
structure TweetApiResponse where
  username : String
  handle : String
  text : String
  timestamp : String
  profileImage : Option String
deriving DecidableEq

/-- Fields of the JSON body served by the tweet API route; each may be
absent. -/
structure TweetJson where
  username : Option String
  handle : Option String
  text : Option String
  timestamp : Option String
  profileImage : Option String

/-- Outcome of the fetch against the tweet API route: a thrown network
error, a non-ok HTTP response, or an ok response with a JSON body. -/
inductive TweetFetchOutcome where
  | threw
  | notOk
  | okJson (d : TweetJson)

/-- Environment of the tweet resolver: the fetch outcome and the value of
the current wall clock rendered by toISOString. -/
structure TweetEnv where
  apiResult : TweetFetchOutcome
  nowIso : String

/-- The record returned by the catch-all branch of fetchTweetData. -/
def fallbackTweetRecord (nowIso : String) : TweetApiResponse :=
  { username := "unknown", handle := "@unknown",
    text := "Tweet content unavailable - please manually input the tweet text",
    timestamp := nowIso, profileImage := none }

/-- Translation of fetchTweetData.  A missing tweet id throws inside the
try block and lands in the catch; a non-ok response falls back to the URL
pattern; a thrown fetch also lands in the catch. -/
def fetchTweetData (env : TweetEnv) (tweetUrl : String) : TweetApiResponse :=
  match extractTweetId tweetUrl with
  | none => fallbackTweetRecord env.nowIso
  | some _ =>
    match env.apiResult with
    | .okJson d =>
      { username := jsOrS d.username "unknown",
        handle := jsOrS d.handle "@unknown",
        text := jsOrS d.text "Tweet content unavailable",
        timestamp := jsOrS d.timestamp env.nowIso,
        profileImage :=
          match d.profileImage with
          | some s => if s = "" then none else some s
          | none => none }
    | .notOk =>
      match scanTweetUrl tweetUrl.toList with
      | some r =>
        { username := r.1, handle := "@" ++ r.1,
          text := "Tweet content unavailable - API request failed",
          timestamp := env.nowIso, profileImage := none }
      | none => fallbackTweetRecord env.nowIso
    | .threw => fallbackTweetRecord env.nowIso

/-! ## Anchor Locator

Translation of calculateTimeAnchorOnLine from the tweet overlay component.
The parsed target time is an integer millisecond value; the chart data
carries the sample timestamps and prices, and the pixel environment holds
the canvas offsets, the Chart.js per-index metadata points and the two
scale functions. -/

/-- The chart data consumed by the anchor locator. -/
structure AnchorChartData where
  timestamps : List ℤ
  prices : List ℚ
deriving DecidableEq

/-- Pixel-space environment of the anchor locator. -/
structure AnchorEnv where
  canvas : Bool
  container : Bool
  offsetX : ℚ
  offsetY : ℚ
  meta : ℕ → Option (ℚ × ℚ)
  scaleX : ℕ → ℚ
  scaleY : ℚ → ℚ

/-- The forEach loop that finds the index of the sample whose timestamp is
closest to the target, keeping the first index on ties; the second
component is the minimal absolute difference, none standing for the
positive infinity initial value. -/
def closestAux (x : ℤ) : List ℤ → ℕ → ℕ × Option ℤ → ℕ × Option ℤ
  | [], _, st => st
  | t :: rest, idx, st =>
    let d := |t - x|
    let upd :=
      match st.2 with
      | none => true
      | some m => decide (d < m)
    closestAux x rest (idx + 1) (if upd then (idx, some d) else st)

/-- Closest-sample scan over the whole timestamp list. -/
def closestScan (x : ℤ) (ts : List ℤ) : ℕ × Option ℤ :=
  closestAux x ts 0 (0, none)

/-- The spike-detection loop: over indexes from searchStart to one before
searchEnd minus one, find the first start index of the largest consecutive
price movement strictly above five percent.  Returns the detection flag
and the chosen start index. -/
def spikeFold (prices : List ℚ) (closest : ℕ) (idxs : List ℕ) : Bool × ℕ × ℚ :=
  idxs.foldl
    (fun st i =>
      match prices.get? i, prices.get? (i + 1) with
      | some currentPrice, some nextPrice =>
        if currentPrice = 0 ∨ nextPrice = 0 then st
        else
          let priceChange := |(nextPrice - currentPrice) / currentPrice|
          if priceChange > 5/100 ∧ priceChange > st.2.2 then (true, i, priceChange)
          else st
      | _, _ => st)
    (false, closest, 0)

/-- Spike detection over the search window around the closest index. -/
def spikeScan (prices : List ℚ) (n closest : ℕ) : Bool × ℕ :=
  let backwardWindow := min 5 (n / 8)
  let forwardWindow := min 20 (n / 3)
  let searchStart := closest - backwardWindow
  let searchEnd := min (n - 1) (closest + forwardWindow)
  let r := spikeFold prices closest (List.range' searchStart (searchEnd - 1 - searchStart))
  (r.1, r.2.1)

/-- Tolerance in milliseconds before the locator abandons the closest
sample, by timeframe. -/
def anchorToleranceMs (timeframe : Option String) : ℤ :=
  if (match timeframe with
      | some tf => (["5m", "15m", "1h"] : List String).contains tf
      | none => false) then 15 * 60 * 1000
  else if timeframe = some "1w" then 7 * 24 * 60 * 60 * 1000
  else if timeframe = some "1m" then 30 * 24 * 60 * 60 * 1000
  else 30 * 60 * 1000

/-- Same calendar day comparison used by the monthly carve-out, modelling
toDateString equality by the calendar day of the epoch millisecond value;
the embedding fixes the rendering time zone at UTC. -/
def sameDayMs (a b : ℤ) : Bool := decide (a / 86400000 = b / 86400000)

/-- The tail of calculateTimeAnchorOnLine: resolve the chosen index to a
pixel position through the Chart.js metadata point when available, else
through the two axis scales, after the canvas and container checks. -/
def pixelResolve (envp : AnchorEnv) (cd : AnchorChartData) (idx : ℕ) : ℚ × ℚ :=
  if !envp.canvas then (0, 0)
  else if !envp.container then (0, 0)
  else
    match envp.meta idx with
    | some p => (p.1 + envp.offsetX, p.2 + envp.offsetY)
    | none =>
      let priceAtTime :=
        match cd.prices.get? idx with
        | some p => if p = 0 then 1/1000000 else p
        | none => 1/1000000
      (envp.scaleX idx + envp.offsetX, envp.scaleY priceAtTime + envp.offsetY)

/-- The index-selection stage of calculateTimeAnchorOnLine: closest-index
search, spike detection except on the monthly timeframe, then the
outside-range and tolerance center fallback. -/
def anchorIndexOf (timeframe : Option String) (tweetMs : ℤ)
    (cd : AnchorChartData) : ℕ :=
  let n := cd.timestamps.length
  let scan := closestScan tweetMs cd.timestamps
  let closestIndex := scan.1
  let minDifference := scan.2
  let spike :=
    if timeframe = some "1m" then (false, closestIndex)
    else spikeScan cd.prices n closestIndex
  let anchorBase := if spike.1 then spike.2 else closestIndex
  let dataStart := cd.timestamps.head?
  let dataEnd := cd.timestamps.getLast?
  let toleranceMs := anchorToleranceMs timeframe
  let sameDay :=
    match dataEnd with
    | some de => sameDayMs de tweetMs
    | none => false
  let isOutsideRange :=
    if timeframe = some "1m" then
      if sameDay && jsGtOpt tweetMs dataEnd then false
      else jsLtOpt tweetMs dataStart || jsGtOpt tweetMs dataEnd
    else jsLtOpt tweetMs dataStart || jsGtOpt tweetMs dataEnd
  let isLargeDifference :=
    match minDifference with
    | none => true
    | some d => decide (toleranceMs < d)
  if isOutsideRange || isLargeDifference then n / 2 else anchorBase

/-- Translation of calculateTimeAnchorOnLine: the selected index resolved
to its pixel position. -/
def calculateTimeAnchorOnLine (envp : AnchorEnv) (timeframe : Option String)
    (tweetMs : ℤ) (cd : AnchorChartData) : ℚ × ℚ :=
  pixelResolve envp cd (anchorIndexOf timeframe tweetMs cd)

/-- Once the scan state has reached a zero difference it never changes,
because absolute differences are nonnegative and updates are strict. -/
theorem closestAux_stick (x : ℤ) :
    ∀ (l : List ℤ) (idx ci : ℕ), closestAux x l idx (ci, some 0) = (ci, some 0) := by
  intro l
  induction l with
  | nil => intro idx ci; rfl
  | cons t rest ih =>
    intro idx ci
    have h : decide (|t - x| < (0 : ℤ)) = false := by
      simp [not_lt.mpr (abs_nonneg (t - x))]
    simp only [closestAux, h, if_false]
    exact ih _ _

/-- The scan over an appended list processes the two parts in order. -/
theorem closestAux_append (x : ℤ) :
    ∀ (a b : List ℤ) (idx : ℕ) (st : ℕ × Option ℤ),
      closestAux x (a ++ b) idx st =
        closestAux x b (idx + a.length) (closestAux x a idx st) := by
  intro a
  induction a with
  | nil => intro b idx st; simp [closestAux]
  | cons t rest ih =>
    intro b idx st
    simp only [List.cons_append, closestAux, List.length_cons]
    have h2 : idx + (rest.length + 1) = idx + 1 + rest.length := by omega
    rw [h2]
    exact ih b (idx + 1) _

/-- Scanning samples that all differ from the target keeps the recorded
minimal difference absent or strictly positive. -/
theorem closestAux_pos (x : ℤ) :
    ∀ (l : List ℤ) (idx : ℕ) (st : ℕ × Option ℤ),
      (∀ t ∈ l, t ≠ x) →
      (st.2 = none ∨ ∃ m, st.2 = some m ∧ 0 < m) →
      ((closestAux x l idx st).2 = none ∨
        ∃ m, (closestAux x l idx st).2 = some m ∧ 0 < m) := by
  intro l
  induction l with
  | nil => intro idx st _ hst; exact hst
  | cons t rest ih =>
    intro idx st hall hst
    simp only [closestAux]
    refine ih _ _ (fun u hu => hall u (List.mem_cons_of_mem _ hu)) ?_
    split
    · right
      refine ⟨|t - x|, rfl, ?_⟩
      exact abs_pos.mpr (sub_ne_zero_of_ne (hall t (List.mem_cons_self _ _)))
    · exact hst

/-- One scan step at the exactly matching element overwrites any absent or
strictly positive recorded minimum and then sticks. -/
theorem closestAux_exact_step (x : ℤ) (rest : List ℤ) (j ci : ℕ) (m : Option ℤ)
    (hm : m = none ∨ ∃ k, m = some k ∧ 0 < k) :
    closestAux x (x :: rest) j (ci, m) = (j, some 0) := by
  have hzero : |x - x| = (0 : ℤ) := by simp
  rcases hm with rfl | ⟨k, rfl, hk⟩
  · simp only [closestAux, hzero, if_pos]
    exact closestAux_stick x rest (j + 1) j
  · simp only [closestAux, hzero]
    rw [if_pos (by simpa using hk)]
    exact closestAux_stick x rest (j + 1) j

/-- When the target equals the sample at index j and no earlier sample
equals it, the closest scan lands exactly on index j with difference
zero. -/
theorem closestScan_exact (x : ℤ) (ts : List ℤ) (j : ℕ) (hj : j < ts.length)
    (hx : ts.get ⟨j, hj⟩ = x)
    (hother : ∀ t ∈ ts.take j, t ≠ x) :
    closestScan x ts = (j, some 0) := by
  have hlen : (ts.take j).length = j := by
    rw [List.length_take]; omega
  have hdecomp : ts = ts.take j ++ ts.get ⟨j, hj⟩ :: ts.drop (j + 1) := by
    conv_lhs => rw [← List.take_append_drop j ts]
    congr 1
    rw [List.get_eq_getElem, List.drop_eq_getElem_cons hj]
  rw [closestScan]
  conv_lhs => rw [hdecomp]
  rw [closestAux_append, hlen, hx, Nat.zero_add]
  exact closestAux_exact_step x _ j _ _
    (closestAux_pos x (ts.take j) 0 (0, none) hother (Or.inl rfl))

/-- The tolerance is positive for every timeframe. -/
theorem anchorToleranceMs_pos (timeframe : Option String) :
    0 < anchorToleranceMs timeframe := by
  unfold anchorToleranceMs
  split_ifs <;> norm_num

/-- Head of a nonempty list as an indexed element. -/
theorem head?_eq_get {α : Type} (l : List α) (h : 0 < l.length) :
    l.head? = some (l.get ⟨0, h⟩) := by
  cases l with
  | nil => simp at h
  | cons a t => rfl

/-- Last element of a nonempty list as an indexed element. -/
theorem getLast?_eq_get {α : Type} (l : List α) (h : 0 < l.length) :
    l.getLast? = some (l.get ⟨l.length - 1, by omega⟩) := by
  rw [List.getLast?_eq_getLast l (by rintro rfl; simp at h),
    List.getLast_eq_get]

/-- C7 counterexample data: nine samples a minute apart whose fourth
sample matches the tweet time exactly, with a one-hundred-percent price
jump one sample later inside the spike search window. -/
def anchorDataW : AnchorChartData :=
  { timestamps := [0, 60000, 120000, 180000, 240000, 300000, 360000, 420000, 480000],
    prices := [0, 0, 0, 0, 100, 200, 0, 0, 0] }

/-- C7 counterexample pixel environment: the Chart.js metadata maps index
i to the pixel point at abscissa i. -/
def anchorEnvW : AnchorEnv :=
  { canvas := true, container := true, offsetX := 0, offsetY := 0,
    meta := fun i => some ((i : ℚ), 0),
    scaleX := fun i => (i : ℚ), scaleY := fun _ => 0 }

/-- C7 is false as stated: with the tweet time exactly equal to the fourth
sample timestamp and well inside the covered range, the spike detector
moves the anchor to the start of the largest price movement (index 4), not
to the matching sample (index 3). -/
theorem claim7_counterexample :
    anchorDataW.timestamps.get? 3 = some 180000 ∧
    calculateTimeAnchorOnLine anchorEnvW (some "1h") 180000 anchorDataW = (4, 0) ∧
    pixelResolve anchorEnvW anchorDataW 3 = (3, 0) ∧
    ((4 : ℚ), (0 : ℚ)) ≠ ((3 : ℚ), (0 : ℚ)) := by
  have hscan : closestScan 180000 anchorDataW.timestamps = (3, some 0) := by decide
  have hspike : spikeScan [0, 0, 0, 0, 100, 200, 0, 0, 0] 9 3 = (true, 4) := by
    norm_num [spikeScan, spikeFold, List.range', List.foldl, abs]
  refine ⟨rfl, ?_, by norm_num [pixelResolve, anchorEnvW], by norm_num⟩
  unfold calculateTimeAnchorOnLine anchorIndexOf
  rw [hscan]
  norm_num [anchorDataW, hspike, anchorToleranceMs, jsLtOpt, jsGtOpt,
    anchorEnvW, pixelResolve]
  simp

/-- C7 amended: when the tweet timestamp equals the timestamp of sample j
of a strictly increasing series, the locator returns exactly the pixel
position of sample j, provided the spike detector finds no consecutive
price movement above five percent in its search window (or the timeframe
is the monthly one, which skips spike detection); otherwise the anchor is
shifted to the start of the largest detected movement. -/
theorem claim7_exact_match_anchor (envp : AnchorEnv) (timeframe : Option String)
    (tweetMs : ℤ) (cd : AnchorChartData) (j : ℕ) (hj : j < cd.timestamps.length)
    (hx : cd.timestamps.get ⟨j, hj⟩ = tweetMs)
    (hmono : cd.timestamps.Pairwise (· < ·))
    (hns : timeframe = some "1m" ∨
      (spikeScan cd.prices cd.timestamps.length j).1 = false) :
    calculateTimeAnchorOnLine envp timeframe tweetMs cd =
      pixelResolve envp cd j := by
  have hpair := List.pairwise_iff_get.mp hmono
  have hother : ∀ t ∈ cd.timestamps.take j, t ≠ tweetMs := by
    intro t ht
    obtain ⟨i, hi, hget⟩ := List.getElem_of_mem ht
    have hij : i < j := by
      have h2 := hi
      rw [List.length_take] at h2
      omega
    have hi2 : i < cd.timestamps.length := by omega
    have hlt : cd.timestamps.get ⟨i, hi2⟩ < cd.timestamps.get ⟨j, hj⟩ :=
      hpair ⟨i, hi2⟩ ⟨j, hj⟩ hij
    rw [hx] at hlt
    have ht2 : t = cd.timestamps.get ⟨i, hi2⟩ := by
      rw [← hget, List.get_eq_getElem, List.getElem_take]
    rw [ht2]
    exact ne_of_lt hlt
  have hscan := closestScan_exact tweetMs cd.timestamps j hj hx hother
  have hpos : 0 < cd.timestamps.length := by omega
  have hhead : cd.timestamps.head? = some (cd.timestamps.get ⟨0, hpos⟩) :=
    head?_eq_get _ hpos
  have hlast : cd.timestamps.getLast? =
      some (cd.timestamps.get ⟨cd.timestamps.length - 1, by omega⟩) :=
    getLast?_eq_get _ hpos
  have hlow : cd.timestamps.get ⟨0, hpos⟩ ≤ tweetMs := by
    rcases Nat.eq_zero_or_pos j with hj0 | hj0
    · subst hj0; exact le_of_eq hx
    · exact le_of_lt (hx ▸ hpair ⟨0, hpos⟩ ⟨j, hj⟩ hj0)
  have hhigh : tweetMs ≤ cd.timestamps.get ⟨cd.timestamps.length - 1, by omega⟩ := by
    rcases Nat.lt_or_ge j (cd.timestamps.length - 1) with hjl | hjl
    · exact le_of_lt (hx ▸ hpair ⟨j, hj⟩ ⟨cd.timestamps.length - 1, by omega⟩ hjl)
    · have hje : j = cd.timestamps.length - 1 := by omega
      subst hje
      exact le_of_eq hx.symm
  have hnotlt : jsLtOpt tweetMs cd.timestamps.head? = false := by
    rw [hhead]
    simp only [jsLtOpt, decide_eq_false_iff_not, not_lt]
    exact hlow
  have hnotgt : jsGtOpt tweetMs cd.timestamps.getLast? = false := by
    rw [hlast]
    simp only [jsGtOpt, decide_eq_false_iff_not, not_lt]
    exact hhigh
  have htolf : decide (anchorToleranceMs timeframe < 0) = false :=
    decide_eq_false (not_lt.mpr (le_of_lt (anchorToleranceMs_pos timeframe)))
  have htol2 : ¬ (anchorToleranceMs timeframe < 0) :=
    not_lt.mpr (le_of_lt (anchorToleranceMs_pos timeframe))
  unfold calculateTimeAnchorOnLine anchorIndexOf
  rw [hscan]
  rcases hns with hns | hns
  · subst hns
    simp [hnotlt, hnotgt, htolf, htol2]
  · by_cases hm : timeframe = some "1m"
    · subst hm
      simp [hnotlt, hnotgt, htolf, htol2]
    · simp [hm, hns, hnotlt, hnotgt, htolf, htol2]

/-- Witness data for C7 amended: the same timestamps as the counterexample
but with no price movement that the spike detector can act on. -/
def anchorDataFlat : AnchorChartData :=
  { timestamps := [0, 60000, 120000, 180000, 240000, 300000, 360000, 420000, 480000],
    prices := [0, 0, 0, 0, 0, 0, 0, 0, 0] }

/-- Witness for C7 amended at concrete data with no detectable spike. -/
theorem claim7_exact_match_anchor_witness :
    calculateTimeAnchorOnLine anchorEnvW (some "1h") 180000 anchorDataFlat =
      pixelResolve anchorEnvW anchorDataFlat 3 :=
  claim7_exact_match_anchor anchorEnvW (some "1h") 180000 anchorDataFlat 3
    (by decide) (by decide) (by decide) (Or.inr (by decide))

/-- C8: on the monthly timeframe, whose tolerance is thirty days and whose
bars are daily, a tweet timestamp four hundred days past the end of the
covered range snaps the anchor to the midpoint index, half the series
length rounded down. -/
theorem claim8_outside_range_midpoint (envp : AnchorEnv) (cd : AnchorChartData)
    (tweetMs : ℤ) (hne : 0 < cd.timestamps.length)
    (hdaily : List.Chain' (fun a b => b = a + 86400000) cd.timestamps)
    (hfar : tweetMs =
      cd.timestamps.get ⟨cd.timestamps.length - 1, by omega⟩ + 400 * 86400000) :
    anchorToleranceMs (some "1m") = 30 * 24 * 60 * 60 * 1000 ∧
    calculateTimeAnchorOnLine envp (some "1m") tweetMs cd =
      pixelResolve envp cd (cd.timestamps.length / 2) := by
  refine ⟨rfl, ?_⟩
  have hlast : cd.timestamps.getLast? =
      some (cd.timestamps.get ⟨cd.timestamps.length - 1, by omega⟩) :=
    getLast?_eq_get _ hne
  set de := cd.timestamps.get ⟨cd.timestamps.length - 1, by omega⟩ with hde
  have hsame : sameDayMs de tweetMs = false := by
    rw [hfar]
    simp only [sameDayMs, decide_eq_false_iff_not]
    omega
  have hgt : jsGtOpt tweetMs (some de) = true := by
    simp only [jsGtOpt, decide_eq_true_eq, hfar]
    omega
  unfold calculateTimeAnchorOnLine anchorIndexOf
  rw [hlast]
  simp [hsame, hgt]

/-- Witness for C8 at a concrete two-sample daily series. -/
theorem claim8_outside_range_midpoint_witness :
    anchorToleranceMs (some "1m") = 30 * 24 * 60 * 60 * 1000 ∧
    calculateTimeAnchorOnLine anchorEnvW (some "1m") (86400000 + 400 * 86400000)
        ⟨[0, 86400000], [1, 1]⟩ =
      pixelResolve anchorEnvW ⟨[0, 86400000], [1, 1]⟩ 1 :=
  claim8_outside_range_midpoint anchorEnvW ⟨[0, 86400000], [1, 1]⟩
    (86400000 + 400 * 86400000) (by decide)
    (by norm_num [List.chain'_cons])
    (by decide)

/-- C9: whenever no tweet id can be extracted from the URL, fetchTweetData
returns the unknown-user record with the current wall-clock ISO time and
the fixed apology text, and never throws. -/
theorem claim9_tweet_fallback (env : TweetEnv) (url : String)
    (h : extractTweetId url = none) :
    fetchTweetData env url =
      { username := "unknown", handle := "@unknown",
        text := "Tweet content unavailable - please manually input the tweet text",
        timestamp := env.nowIso, profileImage := none } := by
  unfold fetchTweetData
  rw [h]
  rfl

/-- Witness for C9 at the malformed URL of the specification example. -/
theorem claim9_tweet_fallback_witness :
    fetchTweetData ⟨TweetFetchOutcome.threw, "2025-01-01T00:00:00.000Z"⟩ "not a url" =
      { username := "unknown", handle := "@unknown",
        text := "Tweet content unavailable - please manually input the tweet text",
        timestamp := "2025-01-01T00:00:00.000Z", profileImage := none } :=
  claim9_tweet_fallback ⟨TweetFetchOutcome.threw, "2025-01-01T00:00:00.000Z"⟩
    "not a url" (by decide)

/-! ## Codex API route

Translation of the route handler in src/app/api/codex/route.ts: the
getBars provider calls with their retry cascade, the tweet-before-data
guard with its PUMP carve-out, and formatCodexResponse.  The GraphQL
provider is an environment function from the query variables to either a
thrown error message or a parsed getBars payload. -/

/-- The BarsResponse payload of the getBars query.  Volume strings are
represented by their parsed numeric values and bar timestamps by their
unix-second values. -/
structure CodexBars where
  o : List ℚ
  h : List ℚ
  l : List ℚ
  c : List ℚ
  volume : List ℚ
  t : List ℤ
  s : String
deriving DecidableEq

/-- The variable fields of a getBars query that the route handler varies
between retries; the remaining inputs are constants in the source. -/
structure CodexBarsInput where
  symbol : String
  fromT : ℤ
  toT : ℤ
  resolution : String
  countback : Option ℕ
  symbolType : String
deriving DecidableEq

/-- Token metadata from the getTokenInfo query. -/
structure CodexTokenInfo where
  symbol : Option String
  name : Option String
  marketCap : Option ℚ
  totalSupply : Option ℚ
  circulatingSupply : Option ℚ

/-- Result of a REST fetch against a DexScreener endpoint: a thrown or
non-ok response, or an ok response whose body may or may not carry a pairs
array. -/
inductive DexFetchResult where
  | fail
  | okPairs (pairs : Option (List DexScreenerToken))

/-- The chart payload shape shared by the route response and the client
resolver.  Timestamps are the epoch millisecond values of the ISO strings
the source serializes. -/
structure ChartApiResponse where
  symbol : String
  prices : List ℚ
  volumes : List ℚ
  timestamps : List ℤ
  currentPrice : ℚ
  priceChange24h : ℚ
  marketCap : Option ℚ
  tokenSupply : Option ℚ
  source : Option String
  dataPoints : Option ℕ
  isPopularToken : Option Bool
  historicalDataUnavailable : Option Bool
deriving DecidableEq

/-- Environment of the route handler and the client resolver: the API key,
the getTokenInfo result, the REST fetches keyed by URL, the getBars
provider keyed by query variables, the wall clock and the Math oracle. -/
structure ResolverEnv where
  apiKey : Option String
  tokenInfo : Option CodexTokenInfo
  dexGet : String → DexFetchResult
  execQuery : CodexBarsInput → Except String (Option CodexBars)
  nowMs : ℤ
  oracle : MathOracle

/-- The JSON bodies the route handler can respond with, each constructor
carrying the fields the source serializes; time fields of the 422 body are
the numeric values whose ISO rendering the source returns. -/
inductive RouteBody where
  | errorMsg (error : String)
  | errorDetails (error details : String)
  | tweetBefore (displaySymbol : String) (tweetTimeSec : ℚ) (earliestSec : ℤ)
  | notFound (symbolTried : String)
  | formatted (resp : ChartApiResponse)
deriving DecidableEq

/-- Resolution mapping of the route handler, primary and fallback. -/
def resolutionMap (timeframe : String) : Option (String × String) :=
  if timeframe = "5m" then some ("1", "5")
  else if timeframe = "15m" then some ("1", "5")
  else if timeframe = "1h" then some ("5", "15")
  else if timeframe = "4h" then some ("15", "60")
  else if timeframe = "6h" then some ("15", "60")
  else if timeframe = "1d" then some ("60", "240")
  else if timeframe = "1w" then some ("240", "1D")
  else if timeframe = "1m" then some ("1D", "7D")
  else none

/-- Total chart range when centering on a tweet timestamp, per timeframe. -/
def timeRangesCentered (timeframe : String) : Option ℤ :=
  if timeframe = "5m" then some (3 * 60 * 60 * 1000)
  else if timeframe = "15m" then some (8 * 60 * 60 * 1000)
  else if timeframe = "1h" then some (16 * 60 * 60 * 1000)
  else if timeframe = "4h" then some (5 * 24 * 60 * 60 * 1000)
  else if timeframe = "6h" then some (8 * 24 * 60 * 60 * 1000)
  else if timeframe = "1d" then some (30 * 24 * 60 * 60 * 1000)
  else if timeframe = "1w" then some (90 * 24 * 60 * 60 * 1000)
  else none

/-- Recent-data range ending at the current time, per timeframe. -/
def timeRangesRecent (timeframe : String) : Option ℤ :=
  if timeframe = "5m" then some (4 * 60 * 60 * 1000)
  else if timeframe = "15m" then some (24 * 60 * 60 * 1000)
  else if timeframe = "1h" then some (7 * 24 * 60 * 60 * 1000)
  else if timeframe = "4h" then some (30 * 24 * 60 * 60 * 1000)
  else if timeframe = "6h" then some (30 * 24 * 60 * 60 * 1000)
  else if timeframe = "1d" then some (90 * 24 * 60 * 60 * 1000)
  else if timeframe = "1w" then some (365 * 24 * 60 * 60 * 1000)
  else if timeframe = "1m" then some (365 * 24 * 60 * 60 * 1000)
  else none

/-- Result of calculateTimeRange: unix-second bounds and resolutions. -/
structure TimeRange where
  fromT : ℤ
  toT : ℤ
  resolution : String
  fallbackRes : String

/-- Translation of calculateTimeRange.  Math.floor of a millisecond value
over 1000 is integer floor division. -/
def calculateTimeRange (timeframe : String) (tweetTimestamp : Option ℤ)
    (nowMs : ℤ) : TimeRange :=
  let tweetTime := tweetTimestamp.getD nowMs
  let rc := (resolutionMap timeframe).getD ("60", "240")
  match tweetTimestamp with
  | some _ =>
    if timeframe = "1m" then
      { fromT := (tweetTime - 60 * 24 * 60 * 60 * 1000) / 1000, toT := nowMs / 1000,
        resolution := rc.1, fallbackRes := rc.2 }
    else
      let totalRange := (timeRangesCentered timeframe).getD (16 * 60 * 60 * 1000)
      let halfRange := totalRange / 2
      { fromT := (tweetTime - halfRange) / 1000, toT := (tweetTime + halfRange) / 1000,
        resolution := rc.1, fallbackRes := rc.2 }
  | none =>
    let range := (timeRangesRecent timeframe).getD (24 * 60 * 60 * 1000)
    { fromT := (nowMs - range) / 1000, toT := nowMs / 1000,
      resolution := rc.1, fallbackRes := rc.2 }

/-- The validity test applied to every getBars payload: a response, an ok
status and a nonempty opening-price array. -/
def isOkBars (barsData : Option CodexBars) : Bool :=
  match barsData with
  | none => false
  | some b => decide (b.s = "ok") && decide (b.o ≠ [])

/-- Extracts the payload after an isOkBars test. -/
def theBars (barsData : Option CodexBars) : CodexBars :=
  barsData.getD { o := [], h := [], l := [], c := [], volume := [], t := [], s := "" }

/-- The degenerate response of formatCodexResponse for an invalid or empty
payload; its marketCap and tokenSupply keys are absent in the source. -/
def formatCodexDegenerate (displaySymbol : String) : ChartApiResponse :=
  { symbol := displaySymbol ++ "/USD", prices := [], volumes := [], timestamps := [],
    currentPrice := 0, priceChange24h := 0, marketCap := none, tokenSupply := none,
    source := some "codex", dataPoints := some 0, isPopularToken := none,
    historicalDataUnavailable := none }

/-- The main branch of formatCodexResponse: per-bar prices taken from the
high with falsy fallback to close, open and zero; volumes from the parsed
volume strings with a zero default; timestamps scaled to milliseconds;
current price the last element; the 24-hour change computed against the
sample 24 slots back when available. -/
def formatCodexOk (b : CodexBars) (displaySymbol : String)
    (marketCap tokenSupply : Option ℚ) : ChartApiResponse :=
  let dataLength := b.o.length
  let prices := (List.range dataLength).map
    (fun i => jsNumOr (b.h.get? i) (jsNumOr (b.c.get? i) (jsNumOr (b.o.get? i) 0)))
  let volumes := (List.range dataLength).map (fun i => (b.volume.get? i).getD 0)
  let timestamps := (List.range dataLength).map (fun i => (b.t.get? i).getD 0 * 1000)
  let currentPrice := jsNumOr (prices.get? (prices.length - 1)) 0
  let price24hAgo :=
    if prices.length > 24 then (prices.get? (prices.length - 24)).getD 0
    else (prices.get? 0).getD 0
  let priceChange24h :=
    if price24hAgo = 0 then 0 else (currentPrice - price24hAgo) / price24hAgo * 100
  let finalMarketCap := jsOrN marketCap
    (if currentPrice ≠ 0 ∧ jsTruthyN tokenSupply = true then
      some (currentPrice * tokenSupply.getD 0) else none)
  { symbol := displaySymbol ++ "/USD", prices := prices, volumes := volumes,
    timestamps := timestamps, currentPrice := currentPrice,
    priceChange24h := priceChange24h, marketCap := finalMarketCap,
    tokenSupply := tokenSupply, source := some "codex",
    dataPoints := some dataLength, isPopularToken := none,
    historicalDataUnavailable := none }

/-- Translation of formatCodexResponse. -/
def formatCodexResponse (barsData : Option CodexBars) (displaySymbol : String)
    (marketCap tokenSupply : Option ℚ) : ChartApiResponse :=
  match barsData with
  | none => formatCodexDegenerate displaySymbol
  | some b =>
    if decide (b.s = "ok") && decide (b.o ≠ []) then
      formatCodexOk b displaySymbol marketCap tokenSupply
    else formatCodexDegenerate displaySymbol

/-- The DexScreener lookup the route always performs for marketcap data:
fallback symbol, fully diluted valuation when truthy, and supply derived
from it.  The priceUsd string of the first pair is represented by its
parsed value, and its string truthiness by the presence of the pair. -/
def dexFallbackInfo (env : ResolverEnv) (address : String) :
    Option String × Option ℚ × Option ℚ :=
  match env.dexGet ("https://api.dexscreener.com/latest/dex/tokens/" ++ address) with
  | DexFetchResult.okPairs (some (pair :: _)) =>
    (some pair.baseTokenSymbol,
     if pair.fdv = 0 then none else some pair.fdv,
     if pair.fdv = 0 then none else some (pair.fdv / pair.priceUsd))
  | _ => (none, none, none)

/-- The display symbol: the Codex token symbol, else the DexScreener base
token symbol, else the TOKEN placeholder. -/
def displaySymbolOf (env : ResolverEnv) (address : String) : String :=
  jsOrS (env.tokenInfo.bind CodexTokenInfo.symbol)
    (jsOrS (dexFallbackInfo env address).1 "TOKEN")

/-- The market cap: Codex first, DexScreener second. -/
def marketCapOf (env : ResolverEnv) (address : String) : Option ℚ :=
  jsOrN (env.tokenInfo.bind CodexTokenInfo.marketCap) (dexFallbackInfo env address).2.1

/-- The token supply: circulating, then total, then DexScreener derived. -/
def tokenSupplyOf (env : ResolverEnv) (address : String) : Option ℚ :=
  jsOrN (env.tokenInfo.bind CodexTokenInfo.circulatingSupply)
    (jsOrN (env.tokenInfo.bind CodexTokenInfo.totalSupply)
      (dexFallbackInfo env address).2.2)

/-- The variables of the first getBars query. -/
def mainBarsVars (env : ResolverEnv) (symbol timeframe : String)
    (tweetTs : Option ℤ) : CodexBarsInput :=
  let address := (strSplit symbol ':').headD ""
  let tr := calculateTimeRange timeframe tweetTs env.nowMs
  { symbol := symbol, fromT := tr.fromT, toT := tr.toT, resolution := tr.resolution,
    countback := none, symbolType := if decide (address.length > 30) then "POOL" else "TOKEN" }

/-- The tweet-before-data test: a tweet timestamp present, a nonempty bar
timestamp array, and the tweet second strictly before the first bar. -/
def tweetGuard (tweetTs : Option ℤ) (b : CodexBars) : Bool :=
  match tweetTs with
  | some ms => decide (b.t ≠ []) && decide ((ms : ℚ) / 1000 < ((b.t.headD 0 : ℤ) : ℚ))
  | none => false

/-- The 422 response of the tweet-before-data guard. -/
def tweetBeforeBody (displaySymbol : String) (tweetMs : ℤ) (b : CodexBars) :
    ℕ × RouteBody :=
  (422, RouteBody.tweetBefore displaySymbol ((tweetMs : ℚ) / 1000) (b.t.headD 0))

/-- The alternate Solana network id loop: skip the current id, return the
first valid payload, none when every candidate fails. -/
def tryAltNetworks (env : ResolverEnv) (vars : CodexBarsInput) (addressPart : String)
    (currentNetworkId : Option String) : List String → Except String (Option CodexBars)
  | [] => Except.ok none
  | nid :: rest =>
    if some nid = currentNetworkId then
      tryAltNetworks env vars addressPart currentNetworkId rest
    else do
      let r ← env.execQuery { vars with symbol := addressPart ++ ":" ++ nid }
      if isOkBars r then Except.ok r
      else tryAltNetworks env vars addressPart currentNetworkId rest

/-- The try block of the route GET handler: the main query, the
opposite-symbolType retry, the recent-data countback retry, the fallback
resolution retry and the alternate network loop, with the guard and its
PUMP carve-out exactly where the source applies them. -/
def routeGETcore (env : ResolverEnv) (symbol : String) (timeframe : String)
    (tweetTs : Option ℤ) : Except String (ℕ × RouteBody) := do
  let address := (strSplit symbol ':').headD ""
  let displaySymbol := displaySymbolOf env address
  let marketCap := marketCapOf env address
  let tokenSupply := tokenSupplyOf env address
  let tr := calculateTimeRange timeframe tweetTs env.nowMs
  let vars := mainBarsVars env symbol timeframe tweetTs
  let barsData ← env.execQuery vars
  if isOkBars barsData then
    let b := theBars barsData
    if tweetGuard tweetTs b then
      if jsIncludes displaySymbol "PUMP" then
        return (200, RouteBody.formatted
          (formatCodexResponse barsData displaySymbol marketCap tokenSupply))
      else
        return tweetBeforeBody displaySymbol (tweetTs.getD 0) b
    else
      return (200, RouteBody.formatted
        (formatCodexResponse barsData displaySymbol marketCap tokenSupply))
  else
    let vars2 := { vars with symbolType := if vars.symbolType = "POOL" then "TOKEN" else "POOL" }
    let retryBars ← env.execQuery vars2
    if isOkBars retryBars then
      let b := theBars retryBars
      if tweetGuard tweetTs b then
        if jsIncludes displaySymbol "PUMP" then
          return (200, RouteBody.formatted
            (formatCodexResponse retryBars displaySymbol marketCap tokenSupply))
        else
          return tweetBeforeBody displaySymbol (tweetTs.getD 0) b
      else
        return (200, RouteBody.formatted
          (formatCodexResponse retryBars displaySymbol marketCap tokenSupply))
    else
      let recentVars := { vars2 with fromT := 0, toT := env.nowMs / 1000, countback := some 1500 }
      let recentBars ← env.execQuery recentVars
      if isOkBars recentBars then
        let b := theBars recentBars
        if tweetGuard tweetTs b then
          return tweetBeforeBody displaySymbol (tweetTs.getD 0) b
        else
          return (200, RouteBody.formatted
            (formatCodexResponse recentBars displaySymbol marketCap tokenSupply))
      else
        let fallbackVars := { vars2 with resolution := tr.fallbackRes }
        let fallbackBars ← env.execQuery fallbackVars
        if isOkBars fallbackBars then
          let b := theBars fallbackBars
          if tweetGuard tweetTs b then
            return tweetBeforeBody displaySymbol (tweetTs.getD 0) b
          else
            return (200, RouteBody.formatted
              (formatCodexResponse fallbackBars displaySymbol marketCap tokenSupply))
        else
          let currentNetworkId := (strSplit symbol ':').get? 1
          if currentNetworkId = some "1399811149" then
            let alt ← tryAltNetworks env vars2 address currentNetworkId ["101", "900"]
            match alt with
            | some b2 =>
              return (200, RouteBody.formatted
                (formatCodexResponse (some b2) displaySymbol none none))
            | none => return (404, RouteBody.notFound symbol)
          else
            return (404, RouteBody.notFound symbol)

/-- Translation of the route GET handler: parameter and key validation,
the try block, and the catch classifying thrown messages into 401, 404 or
500 responses. -/
def routeGET (env : ResolverEnv) (symbolQ timeframeQ : Option String)
    (tweetTs : Option ℤ) : ℕ × RouteBody :=
  let timeframe := jsOrS timeframeQ "1h"
  if !jsTruthyS symbolQ then
    (400, RouteBody.errorMsg "Symbol parameter is required")
  else if !jsTruthyS env.apiKey || decide (env.apiKey = some "your-codex-api-key-here") then
    (500, RouteBody.errorMsg "Codex API key not configured. Please add CODEX_API_KEY to your .env file.")
  else
    match routeGETcore env (symbolQ.getD "") timeframe tweetTs with
    | Except.ok r => r
    | Except.error msg =>
      if jsIncludes msg "Unauthorized" || jsIncludes msg "401" then
        (401, RouteBody.errorMsg "Invalid Codex API key. Please check your CODEX_API_KEY in .env file.")
      else if jsIncludes msg "Not Found" || jsIncludes msg "404" then
        (404, RouteBody.errorMsg "Symbol not found. Please check the symbol format (tokenAddress:networkId).")
      else
        (500, RouteBody.errorDetails "Failed to fetch data from Codex API" msg)

/-! ## Market Data Resolver

Translation of the client pipeline in the api library: fetchCodexChartData
against the route above, extractTokenFromUrl, fetchChartData with its
DexScreener endpoint loop and fallbacks, and fetchChartDataWithHistory
with the popular-token aliases and the PUMP special case. -/

/-- The error field of each non-formatted route body, as read by the
client from the JSON error payload. -/
def routeErrorText : RouteBody → String
  | RouteBody.errorMsg e => e
  | RouteBody.errorDetails e _ => e
  | RouteBody.tweetBefore ds _ _ => "Tweet was posted before chart data exists for " ++ ds
  | RouteBody.notFound _ => "No historical data available for this token/pair in Codex database."
  | RouteBody.formatted _ => ""

/-- Translation of fetchCodexChartData: call the route, convert a 422 body
with a warning into the distinguished timestamp-issue error message, any
other error body into a generic message, and an ok body into the chart
response tagged codex. -/
def fetchCodexChartData (env : ResolverEnv) (tokenSymbol timeframe : String)
    (tweetTimestamp : Option ℤ) : Except String ChartApiResponse :=
  match routeGET env (some tokenSymbol) (some timeframe) tweetTimestamp with
  | (_, RouteBody.formatted d) =>
    Except.ok
      { symbol := d.symbol, prices := d.prices, volumes := d.volumes,
        timestamps := d.timestamps, currentPrice := d.currentPrice,
        priceChange24h := d.priceChange24h, marketCap := d.marketCap,
        tokenSupply := d.tokenSupply, source := some "codex", dataPoints := d.dataPoints,
        isPopularToken := none, historicalDataUnavailable := none }
  | (_, RouteBody.tweetBefore ds _ _) =>
    Except.error ("⚠️ Tweet Timestamp Issue: Tweet was posted before chart data exists for "
      ++ ds ++ ". The tweet timestamp is before any available price data for this token")
  | (_, body) => Except.error ("Codex API error: " ++ routeErrorText body)

/-- The token information extracted from a chart URL or bare address. -/
structure ExtractedToken where
  symbol : Option String
  chain : Option String
  address : Option String
  isPairAddress : Bool

/-- Translation of extractTokenFromUrl: URL inputs are split on slashes
with the chain at index three and the address at index four; bare
addresses default to solana unless they look like an ethereum address. -/
def extractTokenFromUrl (input : String) : ExtractedToken :=
  if jsStarts input "http" then
    let urlParts := strSplit input '/'
    let chain := urlParts.get? 3
    let address := urlParts.get? 4
    let normalizedChain :=
      if chain = some "solana" then some "solana"
      else if chain = some "ethereum" ∨ chain = some "eth" then some "ethereum"
      else chain
    let isPairAddress :=
      match address with
      | some a => decide (a.length > 10)
      | none => false
    { chain := normalizedChain, address := address, symbol := some "PAIR/USD",
      isPairAddress := isPairAddress }
  else
    let chain :=
      if jsStarts input "0x" && decide (input.length = 42) then "ethereum" else "solana"
    { chain := some chain, address := some input, symbol := some "TOKEN/USD",
      isPairAddress := false }

/-- The DexScreener endpoint list tried by fetchChartData. -/
def apiEndpointsFor (address : String) (chain : Option String) : List String :=
  let base := ["https://api.dexscreener.com/latest/dex/tokens/" ++ address,
    "https://api.dexscreener.com/latest/dex/search?q=" ++ address]
  if chain = some "solana" then
    base ++ ["https://api.dexscreener.com/latest/dex/tokens/solana/" ++ address]
  else if chain = some "ethereum" then
    base ++ ["https://api.dexscreener.com/latest/dex/tokens/ethereum/" ++ address]
  else base

/-- The endpoint loop of fetchChartData: the first ok response with a
nonempty pairs array wins. -/
def findFirstPairs (env : ResolverEnv) : List String → Option (List DexScreenerToken)
  | [] => none
  | e :: rest =>
    match env.dexGet e with
    | DexFetchResult.okPairs (some (p :: ps)) => some (p :: ps)
    | _ => findFirstPairs env rest

/-- The chart response fetchChartData builds from the first pair: real
current figures with generated history. -/
def chartRespFromPair (env : ResolverEnv) (pair : DexScreenerToken)
    (timeframe : String) (tweetTs : Option ℤ) : ChartApiResponse :=
  let hist := generateHistoricalDataFromPair env.oracle pair timeframe tweetTs env.nowMs
  { symbol := pair.baseTokenSymbol ++ "/" ++ pair.quoteTokenSymbol,
    prices := hist.1, volumes := hist.2.1, timestamps := hist.2.2,
    currentPrice := pair.priceUsd, priceChange24h := pair.priceChangeH24,
    marketCap := some pair.fdv, tokenSupply := some (pair.fdv / pair.priceUsd),
    source := none, dataPoints := none, isPopularToken := none,
    historicalDataUnavailable := none }

/-- Translation of getFallbackRealData: the PEPE snapshot when available,
else the hard-coded mock with the 420.69 trillion supply at minus 15.5
percent. -/
def getFallbackRealData (env : ResolverEnv) (timeframe : String)
    (tweetTs : Option ℤ) : ChartApiResponse :=
  match env.dexGet
      "https://api.dexscreener.com/latest/dex/tokens/0x6982508145454ce325ddbe47a25d4ec3d2311933" with
  | DexFetchResult.okPairs (some (pair :: _)) => chartRespFromPair env pair timeframe tweetTs
  | _ =>
    let mockData := generateMockChartData env.oracle timeframe tweetTs env.nowMs
    let mockPrice := (mockData.1.get? (mockData.1.length - 1)).getD 0
    { symbol := "PEPE/USDT", prices := mockData.1, volumes := mockData.2.1,
      timestamps := mockData.2.2, currentPrice := mockPrice,
      priceChange24h := -155/10, marketCap := some (mockPrice * 420690000000000),
      tokenSupply := some 420690000000000, source := none, dataPoints := none,
      isPopularToken := none, historicalDataUnavailable := none }

/-- Translation of fetchChartData.  An unusable URL, a failing endpoint
loop and an exhausted pairs array all throw into the catch that runs
getFallbackRealData. -/
def fetchChartData (env : ResolverEnv) (chartUrl timeframe : String)
    (tweetTs : Option ℤ) : ChartApiResponse :=
  let tokenInfo := extractTokenFromUrl chartUrl
  if jsTruthyS tokenInfo.address && jsTruthyS tokenInfo.chain then
    match findFirstPairs env (apiEndpointsFor (tokenInfo.address.getD "") tokenInfo.chain) with
    | some (pair :: _) => chartRespFromPair env pair timeframe tweetTs
    | _ => getFallbackRealData env timeframe tweetTs
  else getFallbackRealData env timeframe tweetTs

/-- The hard-coded popular token aliases. -/
def popularTokenMap (k : String) : Option String :=
  if k = "bitcoin" then some "https://dexscreener.com/ethereum/0x2260fac5e5542a773aa44fbcfedf7c193bc2c599"
  else if k = "ethereum" then some "https://dexscreener.com/ethereum/0xc02aaa39b223fe8d0a0e5c4f27ead9083c756cc2"
  else if k = "solana" then some "https://dexscreener.com/ethereum/0xd31a59c85ae9d8edefec411d448f90841571b89c"
  else none

/-- The chain to Codex network id mapping. -/
def networkMap (chain : String) : Option String :=
  if chain = "ethereum" then some "1"
  else if chain = "solana" then some "1399811149"
  else if chain = "bsc" then some "56"
  else if chain = "polygon" then some "137"
  else if chain = "arbitrum" then some "42161"
  else if chain = "optimism" then some "10"
  else none

/-- Translation of fetchChartDataWithHistory: popular-token alias
rewriting, the PUMP forced path with its two Codex attempts and final
DexScreener fallback, the normal Codex attempt whose timestamp-issue
errors degrade to current real data, and the DexScreener fallback for
everything else. -/
def fetchChartDataWithHistory (env : ResolverEnv) (chartUrl timeframe : String)
    (tweetTs : Option ℤ) : ChartApiResponse :=
  let lower := jsToLower chartUrl
  let actualUrl := (popularTokenMap lower).getD chartUrl
  let isPop := (popularTokenMap lower).isSome
  let tokenInfo := extractTokenFromUrl actualUrl
  if jsTruthyS tokenInfo.address && jsTruthyS tokenInfo.chain then
    let networkId := (networkMap (tokenInfo.chain.getD "")).getD "1"
    let codexSymbol := tokenInfo.address.getD "" ++ ":" ++ networkId
    if chartUrl = "pumpCmXqMfrsAkQ5r49WcJnRayYRqmXz6ae8H7H9Dfn" then
      match fetchCodexChartData env codexSymbol timeframe none with
      | Except.ok codexData =>
        { codexData with source := some "codex-forced", isPopularToken := some false }
      | Except.error _ =>
        match fetchCodexChartData env codexSymbol timeframe tweetTs with
        | Except.ok d =>
          { d with source := some "codex-timestamp", isPopularToken := some false }
        | Except.error _ =>
          let dx := fetchChartData env chartUrl timeframe tweetTs
          { dx with source := some "dexscreener-final-fallback", isPopularToken := some false }
    else
      match fetchCodexChartData env codexSymbol timeframe tweetTs with
      | Except.ok codexData => { codexData with isPopularToken := some isPop }
      | Except.error errorMessage =>
        if jsIncludes errorMessage "Tweet Timestamp Issue" then
          let dx := fetchChartData env actualUrl timeframe none
          { dx with
            source := some "dexscreener-current-real", isPopularToken := some isPop,
            historicalDataUnavailable := some true }
        else
          let dx := fetchChartData env actualUrl timeframe tweetTs
          { dx with source := some "dexscreener", isPopularToken := some isPop }
  else
    let dx := fetchChartData env actualUrl timeframe tweetTs
    { dx with source := some "dexscreener", isPopularToken := some isPop }

/-- The three enumerated source values of the specification data model. -/
inductive SpecSource where
  | realProviderA
  | realProviderB
  | syntheticFallback
deriving DecidableEq

/-- Classifier of the concrete source tags emitted by the resolver into
the three enumerated source values of the specification: the codex tags
denote the primary real provider, the plain dexscreener tags the snapshot
provider path, and the final-fallback tag the last-resort synthesis
path. -/
def specSourceOf (s : String) : Option SpecSource :=
  if s = "codex" ∨ s = "codex-forced" ∨ s = "codex-timestamp" then
    some SpecSource.realProviderA
  else if s = "dexscreener" ∨ s = "dexscreener-current-real" then
    some SpecSource.realProviderB
  else if s = "dexscreener-final-fallback" then
    some SpecSource.syntheticFallback
  else none

/-- Every ok result of the codex client call carries the codex source
tag. -/
theorem fetchCodexChartData_ok_source (env : ResolverEnv) (sym tf : String)
    (ts : Option ℤ) (d : ChartApiResponse)
    (h : fetchCodexChartData env sym tf ts = Except.ok d) :
    d.source = some "codex" := by
  unfold fetchCodexChartData at h
  rcases hr : routeGET env (some sym) (some tf) ts with ⟨st, body⟩
  rw [hr] at h
  cases body with
  | errorMsg e => simp at h
  | errorDetails e details => simp at h
  | tweetBefore ds tsec esec => simp at h
  | notFound symTried => simp at h
  | formatted r =>
    simp only [Except.ok.injEq] at h
    rw [← h]

/-- C1: the market data resolver is a total function of its inputs and
environment, and its result always carries a source tag that denotes one
of the three enumerated source values of the specification, for every
chart URL or address, timeframe and optional tweet timestamp. -/
theorem claim1_resolver_total_source (env : ResolverEnv) (chartUrl timeframe : String)
    (tweetTs : Option ℤ) :
    ∃ s, (fetchChartDataWithHistory env chartUrl timeframe tweetTs).source = some s ∧
      (specSourceOf s).isSome = true := by
  simp only [fetchChartDataWithHistory]
  split
  · split
    · split
      · exact ⟨"codex-forced", rfl, by decide⟩
      · split
        · exact ⟨"codex-timestamp", rfl, by decide⟩
        · exact ⟨"dexscreener-final-fallback", rfl, by decide⟩
    · split
      · rename_i codexData heq
        exact ⟨"codex", fetchCodexChartData_ok_source env _ _ _ codexData heq, by decide⟩
      · split
        · exact ⟨"dexscreener-current-real", rfl, by decide⟩
        · exact ⟨"dexscreener", rfl, by decide⟩
  · exact ⟨"dexscreener", rfl, by decide⟩

/-- The valid bar payload used in the route counterexample and witness. -/
def okBarsW : CodexBars :=
  { o := [1], h := [1], l := [1], c := [1], volume := [1], t := [1000], s := "ok" }

/-- Environment for the C2 counterexample: every getBars query fails
except the one against the first alternate Solana network id. -/
def envC2 : ResolverEnv :=
  { apiKey := some "key", tokenInfo := none,
    dexGet := fun _ => DexFetchResult.fail,
    execQuery := fun v => if v.symbol = "A:101" then Except.ok (some okBarsW)
      else Except.ok none,
    nowMs := 0, oracle := { rand := fun _ => 0, sinPi5 := fun _ => 0, cosPi7 := fun _ => 0 } }

/-- C2 is false as stated on every success path: when the data arrives
through the alternate Solana network id retry, the endpoint returns the
series with status 200 even though the earliest bar timestamp (second
1000) is after the tweet timestamp (second 0) and the display symbol does
not contain PUMP. -/
theorem claim2_counterexample :
    (routeGET envC2 (some "A:1399811149") (some "1h") (some 0)).1 = 200 ∧
    ¬ ((routeGET envC2 (some "A:1399811149") (some "1h") (some 0)).1 = 422) ∧
    jsIncludes (displaySymbolOf envC2 "A") "PUMP" = false ∧
    ((0 : ℚ) / 1000 < ((okBarsW.t.headD 0 : ℤ) : ℚ)) := by
  refine ⟨by decide, by decide, by decide, by norm_num [okBarsW]⟩

/-- C2 amended: on the main success path of the endpoint, a valid bar
series whose earliest timestamp is after the tweet timestamp yields the
422 structured body when the display symbol does not contain PUMP, and
the formatted data when it does.  The recent-data and fallback-resolution
paths apply the guard without the PUMP carve-out, and the alternate
network path applies no guard at all. -/
theorem claim2_main_path_guard (env : ResolverEnv) (sym tf : String)
    (tweetMs : ℤ) (b : CodexBars)
    (hsym : sym ≠ "") (htf : tf ≠ "")
    (hkey : jsTruthyS env.apiKey = true)
    (hkey2 : env.apiKey ≠ some "your-codex-api-key-here")
    (hmain : env.execQuery (mainBarsVars env sym tf (some tweetMs)) =
      Except.ok (some b))
    (hok : b.s = "ok") (hne : b.o ≠ []) (ht : b.t ≠ [])
    (hguard : (tweetMs : ℚ) / 1000 < ((b.t.headD 0 : ℤ) : ℚ)) :
    (jsIncludes (displaySymbolOf env ((strSplit sym ':').headD "")) "PUMP" = false →
      routeGET env (some sym) (some tf) (some tweetMs) =
        (422, RouteBody.tweetBefore (displaySymbolOf env ((strSplit sym ':').headD ""))
          ((tweetMs : ℚ) / 1000) (b.t.headD 0))) ∧
    (jsIncludes (displaySymbolOf env ((strSplit sym ':').headD "")) "PUMP" = true →
      routeGET env (some sym) (some tf) (some tweetMs) =
        (200, RouteBody.formatted (formatCodexResponse (some b)
          (displaySymbolOf env ((strSplit sym ':').headD ""))
          (marketCapOf env ((strSplit sym ':').headD ""))
          (tokenSupplyOf env ((strSplit sym ':').headD ""))))) := by
  have hts : jsOrS (some tf) "1h" = tf := by simp [jsOrS, htf]
  have h1 : jsTruthyS (some sym) = true := by simp [jsTruthyS, hsym]
  have hkey3 : decide (env.apiKey = some "your-codex-api-key-here") = false :=
    decide_eq_false hkey2
  have hokB : isOkBars (some b) = true := by simp [isOkBars, hok, hne]
  have hguardB : tweetGuard (some tweetMs) b = true := by
    simp only [tweetGuard, Bool.and_eq_true, decide_eq_true_eq]
    exact ⟨ht, hguard⟩
  have hbind : ∀ (f : Option CodexBars → Except String (ℕ × RouteBody)),
      (Except.ok (some b) : Except String (Option CodexBars)) >>= f = f (some b) :=
    fun _ => rfl
  have hpure : ∀ (r : ℕ × RouteBody),
      (pure r : Except String (ℕ × RouteBody)) = Except.ok r := fun _ => rfl
  constructor <;> intro hinc <;>
    simp only [List.headD_eq_head?] at hinc <;>
    simp [routeGET, hts, h1, hkey, hkey3, routeGETcore, hmain, hbind, hpure,
      hokB, theBars, hguardB, hinc, tweetBeforeBody]

/-- Environment for the C2 witness: the main getBars query already
succeeds with the bar payload. -/
def envC2w : ResolverEnv :=
  { apiKey := some "key", tokenInfo := none,
    dexGet := fun _ => DexFetchResult.fail,
    execQuery := fun _ => Except.ok (some okBarsW),
    nowMs := 0, oracle := { rand := fun _ => 0, sinPi5 := fun _ => 0, cosPi7 := fun _ => 0 } }

/-- Witness for C2 amended: a non-PUMP symbol whose tweet predates the
data receives the 422 structured body on the main path. -/
theorem claim2_main_path_guard_witness :
    routeGET envC2w (some "B:1") (some "1h") (some 0) =
      (422, RouteBody.tweetBefore (displaySymbolOf envC2w ((strSplit "B:1" ':').headD ""))
        ((0 : ℚ) / 1000) (okBarsW.t.headD 0)) :=
  (claim2_main_path_guard envC2w "B:1" "1h" 0 okBarsW (by decide) (by decide)
    (by decide) (by decide) rfl (by decide) (by decide) (by decide)
    (by norm_num [okBarsW])).1 (by decide)

/-- The last element of a nonempty rational list equals the source
expression that indexes the final slot and guards it against falsiness. -/
theorem jsNumOr_last (l : List ℚ) (h : l ≠ []) :
    some (jsNumOr (l.get? (l.length - 1)) 0) = l.getLast? := by
  have hl : 0 < l.length := List.length_pos.mpr h
  rw [getLast?_eq_get l hl, List.get?_eq_get (by omega : l.length - 1 < l.length)]
  simp only [jsNumOr]
  split_ifs with hv
  · rw [hv]
  · rfl

/-- C10: for every valid nonempty bars payload, the i-th served price is
the i-th high price with falsy fallback to the close, the open and zero,
and the served current price is the last element of the price array. -/
theorem claim10_format_high_prices (b : CodexBars) (sym : String)
    (mc ts : Option ℚ) (hok : b.s = "ok") (hne : b.o ≠ []) :
    (formatCodexResponse (some b) sym mc ts).prices.length = b.o.length ∧
    (∀ i, i < b.o.length →
      (formatCodexResponse (some b) sym mc ts).prices.get? i =
        some (jsNumOr (b.h.get? i) (jsNumOr (b.c.get? i) (jsNumOr (b.o.get? i) 0)))) ∧
    (formatCodexResponse (some b) sym mc ts).prices.getLast? =
      some ((formatCodexResponse (some b) sym mc ts).currentPrice) := by
  have hcond : (decide (b.s = "ok") && decide (b.o ≠ [])) = true := by
    simp [hok, hne]
  have hform : formatCodexResponse (some b) sym mc ts = formatCodexOk b sym mc ts := by
    simp only [formatCodexResponse]
    rw [if_pos hcond]
  rw [hform]
  have hlenmap : (formatCodexOk b sym mc ts).prices.length = b.o.length := by
    simp [formatCodexOk]
  refine ⟨hlenmap, ?_, ?_⟩
  · intro i hi
    simp only [formatCodexOk]
    rw [List.get?_map, List.get?_range hi]
    rfl
  · have hpne : (formatCodexOk b sym mc ts).prices ≠ [] := by
      intro hc
      rw [hc] at hlenmap
      exact hne (List.length_eq_zero.mp hlenmap.symm)
    have := jsNumOr_last (formatCodexOk b sym mc ts).prices hpne
    rw [← this]
    rfl

/-- Witness for C10 at a concrete one-bar payload. -/
theorem claim10_format_high_prices_witness :
    (formatCodexResponse (some okBarsW) "TOKEN" none none).prices.length =
      okBarsW.o.length ∧
    (∀ i, i < okBarsW.o.length →
      (formatCodexResponse (some okBarsW) "TOKEN" none none).prices.get? i =
        some (jsNumOr (okBarsW.h.get? i)
          (jsNumOr (okBarsW.c.get? i) (jsNumOr (okBarsW.o.get? i) 0)))) ∧
    (formatCodexResponse (some okBarsW) "TOKEN" none none).prices.getLast? =
      some ((formatCodexResponse (some okBarsW) "TOKEN" none none).currentPrice) :=
  claim10_format_high_prices okBarsW "TOKEN" none none (by decide) (by decide)

/-- C5: every timeframe token outside the known set resolves, in all three
interval-policy lookup functions, to exactly the one-hour policy values
(interval 3600000 ms, window 86400000 ms, 24 samples), and every known
token yields a positive interval, a positive window and at least one
sample. -/
theorem claim5_policy_defaults (timeframe : String) :
    (timeframe ∉ knownTimeframes →
      getIntervalMs timeframe = 3600000 ∧
      getTimeframeInMs timeframe = 86400000 ∧
      getOptimalDataPoints timeframe = 24) ∧
    (timeframe ∈ knownTimeframes →
      0 < getIntervalMs timeframe ∧
      0 < getTimeframeInMs timeframe ∧
      1 ≤ getOptimalDataPoints timeframe) := by
  constructor
  · intro h
    simp only [knownTimeframes, List.mem_cons, List.not_mem_nil, or_false] at h
    push_neg at h
    obtain ⟨h1, h2, h3, h4, h5, h6⟩ := h
    unfold getIntervalMs getTimeframeInMs getOptimalDataPoints
    simp [h1, h2, h3, h4, h5, h6]
  · intro h
    simp only [knownTimeframes, List.mem_cons, List.not_mem_nil, or_false] at h
    unfold getIntervalMs getTimeframeInMs getOptimalDataPoints
    rcases h with h | h | h | h | h | h <;> subst h <;> simp

/-- Witness for C5: the unknown token 2h takes the one-hour defaults, and
the known token 5m has a positive policy. -/
theorem claim5_policy_defaults_witness :
    (getIntervalMs "2h" = 3600000 ∧
      getTimeframeInMs "2h" = 86400000 ∧
      getOptimalDataPoints "2h" = 24) ∧
    (0 < getIntervalMs "5m" ∧
      0 < getTimeframeInMs "5m" ∧
      1 ≤ getOptimalDataPoints "5m") :=
  ⟨(claim5_policy_defaults "2h").1 (by decide),
   (claim5_policy_defaults "5m").2 (by decide)⟩

/-- C6: the three policy tables are mutually consistent: for every
timeframe token, including the default branch, the total window divided by
the sample interval never exceeds the maximal sample count. -/
theorem claim6_policy_consistency (timeframe : String) :
    getTimeframeInMs timeframe / getIntervalMs timeframe ≤
      getOptimalDataPoints timeframe := by
  unfold getTimeframeInMs getIntervalMs getOptimalDataPoints
  split_ifs <;> decide

end Recharted
